import Mathlib

/-
Verification of leaderboard/scenarios/scenario_manager.py (class ScenarioManager).

The Python object state is embedded as the structure `ScenarioManager`; every
method of the class becomes a Lean function on that structure.  External
collaborators (the CARLA world, GameTime, CarlaDataProvider, the py_trees
behavior tree, the agent, the spectator) are pure inputs or are recorded as
presence flags; their calls do not change the manager state.  Wall-clock and
game-clock readings are passed as explicit arguments.  Python `float` values
are modelled as `Rat` (the claims only compare and subtract times, they never
depend on rounding).  A Python attribute holding `None` or never assigned is
an `Option` field holding `none`.  A Python exception propagating out of a
method is an `Option PyErr` value returned next to the mutated state, since
Python keeps the attribute mutations performed before the raise.
-/

namespace LeaderboardSM

/-- Status values of a py_trees behavior tree node, as read from
`scenario_tree.status` after `tick_once()`. -/
inductive Status where
  | RUNNING
  | SUCCESS
  | FAILURE
  | INVALID
deriving DecidableEq

/-- Exceptions that the modelled methods can raise.  `configurationError`
belongs to the taxonomy of the specification only: no code path of
scenario_manager.py ever raises it, it is included so that statements can
compare the error actually raised against the one the specification names. -/
inductive PyErr where
  | indexError
  | typeError
  | attributeError
  | runtimeErrorAgentTimeout (timeout : Rat)
  | runtimeErrorSimTimeout (timeout : Rat)
  | runtimeErrorSensor
  | agentError
  | configurationError
deriving DecidableEq

/-- A pass/fail criterion of the scenario, exposing `test_status` as read by
`analyze_scenario`. -/
structure Criterion where
  name : String
  test_status : String
deriving DecidableEq

/-- The timeout node of the scenario, exposing the boolean `timeout` flag. -/
structure TimeoutNode where
  timeout : Bool
deriving DecidableEq

/-- The inner scenario object (`scenario.scenario` in `load_scenario`),
carrying the criteria returned by `get_criteria()` and the timeout node.  The
behavior tree itself is an external py_trees object and is not part of the
data the manager reads directly. -/
structure InnerScenario where
  criteria : List Criterion
  timeout_node : TimeoutNode
deriving DecidableEq

/-- The outer scenario object passed to `load_scenario`: holds the inner
scenario and the actor lists.  Individual actors are opaque external objects,
modelled as `Unit`. -/
structure ScenarioClass where
  scenario : InnerScenario
  ego_vehicles : List Unit
  other_actors : List Unit
deriving DecidableEq

/-- A CARLA snapshot timestamp, exposing `elapsed_seconds`. -/
structure Timestamp where
  elapsed_seconds : Rat
deriving DecidableEq

/-- Modelled from the spec: the srunner `Watchdog` imported by
scenario_manager.py is not part of this repository, so its state is modelled
from section 4.1 of the specification.  `running` is true between `start()`
and `stop()`; `pause()`/`resume()` toggle `paused`; `expired` latches when the
configured interval elapses without a refresh while running and unpaused
(the elapsing of the deadline is the external event `expire`), and is reset
by `start()`/`update()` as section 8 of the specification states.  Following
sections 4.3 and 7 of the specification, which require the expiry to remain
observable through `get_status()` after `stop()` (stop_scenario stops the
watchdog before polling it), `stop()` preserves the latched `expired` flag;
`get_status()` is the negation of `expired`, hence true when never started. -/
structure Watchdog where
  timeout : Rat
  running : Bool
  paused : Bool
  expired : Bool
deriving DecidableEq

/-- Modelled from the spec: `Watchdog(timeout)` constructor. -/
def Watchdog.init (t : Rat) : Watchdog :=
  { timeout := t, running := false, paused := false, expired := false }

/-- Modelled from the spec: `start()` begins tracking and resets expiry. -/
def Watchdog.start (w : Watchdog) : Watchdog :=
  { w with running := true, paused := false, expired := false }

/-- Modelled from the spec: `update()` refreshes the last-seen-alive
timestamp, resetting a latched expiry. -/
def Watchdog.update (w : Watchdog) : Watchdog :=
  { w with expired := false }

/-- Modelled from the spec: `pause()` suspends expiry evaluation. -/
def Watchdog.pause (w : Watchdog) : Watchdog :=
  { w with paused := true }

/-- Modelled from the spec: `resume()` resumes expiry evaluation. -/
def Watchdog.resume (w : Watchdog) : Watchdog :=
  { w with paused := false }

/-- Modelled from the spec: `stop()` ends tracking permanently; the latched
expiry stays observable. -/
def Watchdog.stop (w : Watchdog) : Watchdog :=
  { w with running := false }

/-- Modelled from the spec: the external event of the deadline interval
elapsing; it latches `expired` only while the watchdog is running and not
paused. -/
def Watchdog.expire (w : Watchdog) : Watchdog :=
  if w.running && !w.paused then { w with expired := true } else w

/-- Modelled from the spec: `get_status()` is false exactly when an expiry is
latched. -/
def Watchdog.get_status (w : Watchdog) : Bool :=
  !w.expired

/-- A watchdog is active when it is running and not paused: this is the state
in which elapsed time counts against its deadline. -/
def wdActive : Option Watchdog → Bool
  | some w => w.running && !w.paused
  | none => false

/-- The attribute state of a `ScenarioManager` object.  `scenario_tree` and
`_spectator` record presence of the external objects; `_agent` records
whether the `AgentWrapper` reference is set (it is cleared to `None` by
`stop_scenario`); `start_game_time` is the only attribute `__init__` does not
create, so `none` there means the attribute is missing. -/
structure ScenarioManager where
  scenario : Option InnerScenario
  scenario_tree : Bool
  scenario_class : Option ScenarioClass
  ego_vehicles : Option (List Unit)
  other_actors : Option (List Unit)
  _debug_mode : Bool
  _agent : Bool
  _running : Bool
  _timestamp_last_run : Rat
  _timeout : Rat
  scenario_duration_system : Rat
  scenario_duration_game : Rat
  start_system_time : Option Rat
  start_game_time : Option Rat
  end_system_time : Option Rat
  end_game_time : Option Rat
  repetition_number : Option Nat
  _watchdog : Option Watchdog
  _agent_watchdog : Option Watchdog
  _spectator : Bool
deriving DecidableEq

namespace ScenarioManager

/-- `__init__(timeout, debug_mode)`: lines 48 to 74 of the source.  All
attributes listed there are set; `repetition_number`, `start_game_time` and
`_spectator` are not assigned by `__init__`. -/
def init (timeout : Rat) (debug_mode : Bool) : ScenarioManager :=
  { scenario := none
  , scenario_tree := false
  , scenario_class := none
  , ego_vehicles := none
  , other_actors := none
  , _debug_mode := debug_mode
  , _agent := false
  , _running := false
  , _timestamp_last_run := 0
  , _timeout := timeout
  , scenario_duration_system := 0
  , scenario_duration_game := 0
  , start_system_time := none
  , start_game_time := none
  , end_system_time := none
  , end_game_time := none
  , repetition_number := none
  , _watchdog := none
  , _agent_watchdog := none
  , _spectator := false }

/-- Python truthiness test `wd and not wd.get_status()` used by
`signal_handler`: true when the watchdog object exists and reports expired. -/
def wdCheckFailed : Option Watchdog → Bool
  | some w => !w.get_status
  | none => false

/-- `signal_handler(signum, frame)`: lines 76 to 84.  Checks the agent
watchdog first, then the world watchdog; raises a RuntimeError naming the
expired watchdog, and only when neither is expired clears `_running`. -/
def signal_handler (s : ScenarioManager) : ScenarioManager × Option PyErr :=
  if wdCheckFailed s._agent_watchdog then
    (s, some (PyErr.runtimeErrorAgentTimeout s._timeout))
  else if wdCheckFailed s._watchdog then
    (s, some (PyErr.runtimeErrorSimTimeout s._timeout))
  else
    ({ s with _running := false }, none)

/-- `cleanup()`: lines 86 to 99.  Resets the listed attributes; note that it
does not touch `scenario`, `_agent`, `_running` or `start_game_time`. -/
def cleanup (s : ScenarioManager) : ScenarioManager :=
  { s with
    _timestamp_last_run := 0
  , scenario_duration_system := 0
  , scenario_duration_game := 0
  , start_system_time := none
  , end_system_time := none
  , end_game_time := none
  , _spectator := false
  , _watchdog := none
  , _agent_watchdog := none }

/-- `load_scenario(scenario, agent, rep_number)`: lines 101 to 120.
`GameTime.restart()`, the `AgentWrapper` construction, the spectator lookup
and `setup_sensors` are external calls; the only failing step inside this
method for the modelled state is the expression `self.ego_vehicles[0]` in the
`setup_sensors` call, which raises an IndexError when the ego vehicle list is
empty.  All attribute assignments happen before that expression is
evaluated, so they survive the raise. -/
def load_scenario (s : ScenarioManager) (scen : ScenarioClass) (rep_number : Nat) :
    ScenarioManager × Option PyErr :=
  let s := { s with
    _agent := true
  , scenario_class := some scen
  , scenario := some scen.scenario
  , scenario_tree := true
  , ego_vehicles := some scen.ego_vehicles
  , other_actors := some scen.other_actors
  , repetition_number := some rep_number
  , _spectator := true }
  match scen.ego_vehicles with
  | [] => (s, some PyErr.indexError)
  | _ :: _ => (s, none)

/-- Lines 126 to 137 of `run_scenario()`: record the start times, create and
start both watchdogs, and set `_running` before entering the while loop.
`now` is the `time.time()` reading and `game_now` the `GameTime.get_time()`
reading. -/
def run_scenario_init (now game_now : Rat) (s : ScenarioManager) : ScenarioManager :=
  { s with
    start_system_time := some now
  , start_game_time := some game_now
  , _watchdog := some (Watchdog.init s._timeout).start
  , _agent_watchdog := some (Watchdog.init s._timeout).start
  , _running := true }

/-- `get_running_status()`: lines 198 to 205. -/
def get_running_status (s : ScenarioManager) : Bool :=
  match s._watchdog with
  | some w => w.get_status
  | none => false

end ScenarioManager

/-- Outcome of the agent call `self._agent()` inside `_tick_scenario`:
either it returns a control command normally, or it raises the
`SensorReceivedNoData` exception, or it raises some other exception. -/
inductive AgentOutcome where
  | control
  | sensorNoData
  | raisesOther
deriving DecidableEq

/-- External inputs consumed by one call of `_tick_scenario`: the outcome of
the agent call, and the status the behavior tree reports after
`tick_once()`. -/
structure TickEnv where
  agentResult : AgentOutcome
  treeStatusAfter : Status
deriving DecidableEq

/-- Snapshot of the pair (world watchdog, agent watchdog) of a state; the
micro-trace of a tick collects these after every statement of the tick body
that changes them, so that watchdog exclusivity can be stated at every
intermediate point of the tick. -/
def wds (s : ScenarioManager) : Option Watchdog × Option Watchdog :=
  (s._watchdog, s._agent_watchdog)

/-- Result of one `_tick_scenario` call: the state after the call (Python
keeps the mutations performed before a raise), whether the guarded tick body
ran, the exception propagating out if any, and the micro-trace of watchdog
snapshots. -/
structure TickResult where
  state : ScenarioManager
  bodyRan : Bool
  error : Option PyErr
  trace : List (Option Watchdog × Option Watchdog)
deriving DecidableEq

namespace ScenarioManager

/-- Guard of the tick body, line 154:
`if self._timestamp_last_run < timestamp.elapsed_seconds and self._running`. -/
def tickGuard (s : ScenarioManager) (ts : Timestamp) : Bool :=
  decide (s._timestamp_last_run < ts.elapsed_seconds) && s._running

/-- `_tick_scenario(timestamp)`: lines 149 to 196.  Statements in order:
set `_timestamp_last_run`; `_watchdog.update()` (an AttributeError when the
watchdog is `None`); the external `GameTime.on_carla_tick` and
`CarlaDataProvider.on_carla_tick`; `_watchdog.pause()`; then the try block:
`_agent_watchdog.resume()` and `update()` (when the agent watchdog or the
agent reference is `None`, the resulting exception is caught by
`except Exception` and re-raised as `AgentError`), the agent call mapped
through the two except clauses; then `_agent_watchdog.pause()`,
`_watchdog.resume()`, `ego_vehicles[0].apply_control` (a TypeError when the
list attribute is `None`, an IndexError when it is empty),
`scenario_tree.tick_once()` (an AttributeError when the tree is `None`), the
`_running` update from the tree status, and the spectator repositioning (an
AttributeError when `_spectator` is `None` or missing).  The final world
tick of line 195 into line 196 is an external call on the CARLA world and
changes no manager attribute. -/
def _tick_scenario (s : ScenarioManager) (ts : Timestamp) (env : TickEnv) : TickResult :=
  if tickGuard s ts then
    let s0 := { s with _timestamp_last_run := ts.elapsed_seconds }
    match s0._watchdog with
    | none =>
      { state := s0, bodyRan := true, error := some PyErr.attributeError, trace := [wds s0] }
    | some w =>
      let s1 := { s0 with _watchdog := some w.update }
      let s2 := { s1 with _watchdog := some w.update.pause }
      match s2._agent_watchdog with
      | none =>
        { state := s2, bodyRan := true, error := some PyErr.agentError
        , trace := [wds s0, wds s1, wds s2] }
      | some aw =>
        let s3 := { s2 with _agent_watchdog := some aw.resume }
        let s4 := { s3 with _agent_watchdog := some aw.resume.update }
        let tr := [wds s0, wds s1, wds s2, wds s3, wds s4]
        if !s4._agent then
          { state := s4, bodyRan := true, error := some PyErr.agentError, trace := tr }
        else
          match env.agentResult with
          | AgentOutcome.sensorNoData =>
            { state := s4, bodyRan := true, error := some PyErr.runtimeErrorSensor, trace := tr }
          | AgentOutcome.raisesOther =>
            { state := s4, bodyRan := true, error := some PyErr.agentError, trace := tr }
          | AgentOutcome.control =>
            let s5 := { s4 with _agent_watchdog := some aw.resume.update.pause }
            let s6 := { s5 with _watchdog := some w.update.pause.resume }
            let tr := tr ++ [wds s5, wds s6]
            match s6.ego_vehicles with
            | none =>
              { state := s6, bodyRan := true, error := some PyErr.typeError, trace := tr }
            | some [] =>
              { state := s6, bodyRan := true, error := some PyErr.indexError, trace := tr }
            | some (_ :: _) =>
              if !s6.scenario_tree then
                { state := s6, bodyRan := true, error := some PyErr.attributeError, trace := tr }
              else
                let s7 := if env.treeStatusAfter ≠ Status.RUNNING
                          then { s6 with _running := false } else s6
                if !s7._spectator then
                  { state := s7, bodyRan := true, error := some PyErr.attributeError
                  , trace := tr ++ [wds s7] }
                else
                  { state := s7, bodyRan := true, error := none, trace := tr ++ [wds s7] }
  else
    { state := s, bodyRan := false, error := none, trace := [wds s] }

/-- The while loop of `run_scenario()`, lines 139 to 147, over a list of
observed simulator frames (loop iterations in which no snapshot or timestamp
is available call nothing and are not represented).  Returns the final state,
the list of `elapsed_seconds` values for which the tick body executed, and
the first exception propagating out of the loop, if any. -/
def runFrames (s : ScenarioManager) :
    List (Timestamp × TickEnv) → ScenarioManager × List Rat × Option PyErr
  | [] => (s, [], none)
  | (ts, env) :: rest =>
    if s._running then
      let r := _tick_scenario s ts env
      let proc := if r.bodyRan then [ts.elapsed_seconds] else []
      match r.error with
      | some e => (r.state, proc, some e)
      | none =>
        let q := runFrames r.state rest
        (q.1, proc ++ q.2.1, q.2.2)
    else (s, [], none)

/-- The list of simulated timestamps whose tick body executed during a run of
the loop from state `s` over the given frames. -/
def processed (s : ScenarioManager) (frames : List (Timestamp × TickEnv)) : List Rat :=
  (runFrames s frames).2.1

/-- The colored overall result string built by `analyze_scenario` in the
success case (octal 33 escape is hexadecimal 1b). -/
def SUCCESS_RESULT : String := "\x1b[92m" ++ "SUCCESS" ++ "\x1b[0m"

/-- The colored overall result string built by `analyze_scenario` in the
failure case. -/
def FAILURE_RESULT : String := "\x1b[91m" ++ "FAILURE" ++ "\x1b[0m"

/-- `analyze_scenario()`: lines 233 to 246, on the inner scenario it reads.
Starts from the SUCCESS string, overwrites with FAILURE for every criterion
whose `test_status` differs from the plain string SUCCESS, then overwrites
with FAILURE when the timeout node flag is set.  The trailing
`ResultOutputProvider` call is an external reporter. -/
def analyze_scenario (scenario : InnerScenario) : String :=
  let global_result := SUCCESS_RESULT
  let global_result := scenario.criteria.foldl
    (fun acc criterion =>
      if criterion.test_status ≠ "SUCCESS" then FAILURE_RESULT else acc)
    global_result
  if scenario.timeout_node.timeout then FAILURE_RESULT else global_result

/-- Result of one `stop_scenario` call: the state after the call, the
exception propagating out if any, and observations of the three guarded
actions: whether `scenario.terminate()` ran, whether the agent was cleaned up
and released, and the verdict string when `analyze_scenario` ran. -/
structure StopResult where
  state : ScenarioManager
  error : Option PyErr
  terminated : Bool
  agentReleased : Bool
  analyzed : Option String
deriving DecidableEq

/-- `stop_scenario()`: lines 207 to 231.  Stops each existing watchdog,
overwrites the end times from the current clock readings (`now` from
`time.time()`, `game_now` from `GameTime.get_time()`), recomputes both
durations (a TypeError when `start_system_time` is `None`, an AttributeError
when `start_game_time` was never created), and only when
`get_running_status()` returns true: terminates the scenario when present,
cleans up and clears the agent when present, and runs `analyze_scenario`
(an AttributeError when the scenario is `None`). -/
def stop_scenario (now game_now : Rat) (s : ScenarioManager) : StopResult :=
  let s := { s with _watchdog := Option.map Watchdog.stop s._watchdog }
  let s := { s with _agent_watchdog := Option.map Watchdog.stop s._agent_watchdog }
  let s := { s with end_system_time := some now, end_game_time := some game_now }
  match s.start_system_time with
  | none =>
    { state := s, error := some PyErr.typeError
    , terminated := false, agentReleased := false, analyzed := none }
  | some sst =>
    let s := { s with scenario_duration_system := now - sst }
    match s.start_game_time with
    | none =>
      { state := s, error := some PyErr.attributeError
      , terminated := false, agentReleased := false, analyzed := none }
    | some sgt =>
      let s := { s with scenario_duration_game := game_now - sgt }
      if get_running_status s then
        let terminated := s.scenario.isSome
        let agentReleased := s._agent
        let s := if s._agent then { s with _agent := false } else s
        match s.scenario with
        | none =>
          { state := s, error := some PyErr.attributeError
          , terminated := terminated, agentReleased := agentReleased, analyzed := none }
        | some sc =>
          { state := s, error := none
          , terminated := terminated, agentReleased := agentReleased
          , analyzed := some (analyze_scenario sc) }
      else
        { state := s, error := none
        , terminated := false, agentReleased := false, analyzed := none }

end ScenarioManager

end LeaderboardSM

namespace LeaderboardSM

namespace ScenarioManager

/-- A concrete scenario with one controlled actor, used as input by witness
theorems. -/
def demoScenario : ScenarioClass :=
  { scenario := { criteria := [{ name := "collision", test_status := "SUCCESS" }]
                , timeout_node := { timeout := false } }
  , ego_vehicles := [()]
  , other_actors := [] }

/-- A manager that has loaded `demoScenario`. -/
def loadedManager : ScenarioManager := (load_scenario (init 10 false) demoScenario 0).1

/-- A manager that has loaded `demoScenario` and entered `run_scenario` with
both clock readings at 0. -/
def startedManager : ScenarioManager := run_scenario_init 0 0 loadedManager

/-- A tick environment in which the agent returns a control command and the
behavior tree stays RUNNING. -/
def envControl : TickEnv :=
  { agentResult := AgentOutcome.control, treeStatusAfter := Status.RUNNING }

/-- The state of `startedManager` after one full successful tick at
simulated time 1. -/
def afterFirstTick : ScenarioManager :=
  (_tick_scenario startedManager { elapsed_seconds := 1 } envControl).state

/-- A started manager whose agent watchdog deadline has elapsed. -/
def expiredAgentManager : ScenarioManager :=
  { startedManager with
    _agent_watchdog := Option.map Watchdog.expire startedManager._agent_watchdog }

/-- A started manager whose world watchdog deadline has elapsed. -/
def expiredWorldManager : ScenarioManager :=
  { startedManager with
    _watchdog := Option.map Watchdog.expire startedManager._watchdog }

/-- A fresh manager whose last processed timestamp is 5, as left behind by a
previous run whose largest ticked timestamp was 5. -/
def ranManager : ScenarioManager := { init 10 false with _timestamp_last_run := 5 }

/-- When the guard of line 154 fails, `_tick_scenario` changes nothing: the
body is skipped and the only remaining statement, the world tick of line
195, is an external call. -/
theorem tick_not_run (s : ScenarioManager) (ts : Timestamp) (env : TickEnv)
    (h : tickGuard s ts = false) :
    _tick_scenario s ts env = ⟨s, false, none, [wds s]⟩ := by
  unfold _tick_scenario
  simp [h]

/-- When the guard of line 154 holds, the body runs and line 155 records the
new timestamp; no later statement of the body touches it again. -/
theorem tick_run_body (s : ScenarioManager) (ts : Timestamp) (env : TickEnv)
    (h : tickGuard s ts = true) :
    (_tick_scenario s ts env).bodyRan = true ∧
    (_tick_scenario s ts env).state._timestamp_last_run = ts.elapsed_seconds := by
  unfold _tick_scenario
  rw [h]
  simp only [if_true]
  repeat' split
  all_goals simp

/-- The tick guard requires a strictly larger timestamp. -/
theorem tickGuard_lt (s : ScenarioManager) (ts : Timestamp)
    (h : tickGuard s ts = true) : s._timestamp_last_run < ts.elapsed_seconds := by
  unfold tickGuard at h
  simp only [Bool.and_eq_true, decide_eq_true_eq] at h
  exact h.1

theorem processed_nil (s : ScenarioManager) : processed s [] = [] := rfl

theorem processed_cons_halt (s : ScenarioManager) (ts : Timestamp) (env : TickEnv)
    (rest : List (Timestamp × TickEnv)) (hr : s._running = false) :
    processed s ((ts, env) :: rest) = [] := by
  simp [processed, runFrames, hr]

theorem processed_cons_skip (s : ScenarioManager) (ts : Timestamp) (env : TickEnv)
    (rest : List (Timestamp × TickEnv)) (hr : s._running = true)
    (hg : tickGuard s ts = false) :
    processed s ((ts, env) :: rest) = processed s rest := by
  simp [processed, runFrames, hr, tick_not_run s ts env hg]

theorem processed_cons_err (s : ScenarioManager) (ts : Timestamp) (env : TickEnv)
    (rest : List (Timestamp × TickEnv)) (hr : s._running = true)
    (hg : tickGuard s ts = true) (e : PyErr)
    (herr : (_tick_scenario s ts env).error = some e) :
    processed s ((ts, env) :: rest) = [ts.elapsed_seconds] := by
  simp [processed, runFrames, hr, herr, (tick_run_body s ts env hg).1]

theorem processed_cons_ok (s : ScenarioManager) (ts : Timestamp) (env : TickEnv)
    (rest : List (Timestamp × TickEnv)) (hr : s._running = true)
    (hg : tickGuard s ts = true)
    (herr : (_tick_scenario s ts env).error = none) :
    processed s ((ts, env) :: rest)
      = ts.elapsed_seconds :: processed (_tick_scenario s ts env).state rest := by
  simp [processed, runFrames, hr, herr, (tick_run_body s ts env hg).1]

/-- Timestamps whose tick body executes form a strictly increasing sequence,
each strictly above the initial last-processed timestamp. -/
theorem processed_chain (frames : List (Timestamp × TickEnv)) :
    ∀ s : ScenarioManager,
      List.Chain' (· < ·) (s._timestamp_last_run :: processed s frames) := by
  induction frames with
  | nil =>
    intro s
    simp [processed_nil]
  | cons f rest ih =>
    intro s
    obtain ⟨ts, env⟩ := f
    by_cases hr : s._running = true
    · by_cases hg : tickGuard s ts = true
      · have hlt : s._timestamp_last_run < ts.elapsed_seconds := tickGuard_lt s ts hg
        cases herr : (_tick_scenario s ts env).error with
        | some e =>
          rw [processed_cons_err s ts env rest hr hg e herr]
          simp [hlt]
        | none =>
          have hrec := ih (_tick_scenario s ts env).state
          rw [(tick_run_body s ts env hg).2] at hrec
          rw [processed_cons_ok s ts env rest hr hg herr, List.chain'_cons]
          exact ⟨hlt, hrec⟩
      · rw [Bool.not_eq_true] at hg
        rw [processed_cons_skip s ts env rest hr hg]
        exact ih s
    · rw [Bool.not_eq_true] at hr
      rw [processed_cons_halt s ts env rest hr]
      simp

/-- No timestamp value has its tick body executed twice during a run. -/
theorem processed_nodup (s : ScenarioManager) (frames : List (Timestamp × TickEnv)) :
    (processed s frames).Nodup := by
  have h := (processed_chain frames s).tail
  have h2 : List.Pairwise (· < ·) (processed s frames) :=
    List.chain'_iff_pairwise.mp h
  exact List.Pairwise.nodup h2

/-- The criterion loop of `analyze_scenario` yields FAILURE exactly when some
criterion is not SUCCESS, and otherwise keeps the accumulator. -/
theorem analyze_foldl (l : List Criterion) (acc : String) :
    List.foldl (fun acc criterion =>
      if criterion.test_status ≠ "SUCCESS" then FAILURE_RESULT else acc) acc l
    = if ∃ c ∈ l, c.test_status ≠ "SUCCESS" then FAILURE_RESULT else acc := by
  induction l generalizing acc with
  | nil => simp
  | cons c l ih =>
    rw [List.foldl_cons]
    by_cases hc : c.test_status = "SUCCESS"
    · rw [if_neg (by simp [hc]), ih]
      have hiff : (∃ x ∈ c :: l, x.test_status ≠ "SUCCESS")
          ↔ (∃ x ∈ l, x.test_status ≠ "SUCCESS") := by
        simp [hc]
      simp only [hiff]
    · rw [if_pos (by simp [hc]), ih, ite_self]
      rw [if_pos ⟨c, List.mem_cons_self c l, hc⟩]

theorem success_ne_failure : SUCCESS_RESULT ≠ FAILURE_RESULT := by decide

end ScenarioManager

end LeaderboardSM

namespace LeaderboardSM

namespace ScenarioManager

/-- At every intermediate point of a tick entered with the agent watchdog
inactive, the world watchdog and the agent watchdog are never both active:
the body pauses the world watchdog before resuming the agent watchdog, and
pauses the agent watchdog before resuming the world watchdog. -/
theorem tick_trace_mutex (s : ScenarioManager) (ts : Timestamp) (env : TickEnv)
    (hA : wdActive s._agent_watchdog = false) :
    ((_tick_scenario s ts env).trace.all
      (fun p => !(wdActive p.1 && wdActive p.2))) = true := by
  rcases hw : s._watchdog with _ | w
  all_goals rcases haw : s._agent_watchdog with _ | aw
  all_goals rw [haw] at hA
  all_goals simp only [wdActive, Bool.and_eq_false_iff, Bool.not_eq_false'] at hA
  all_goals unfold _tick_scenario
  all_goals try simp only [hw, haw]
  all_goals repeat' split
  all_goals try simp [wds, wdActive, Watchdog.pause, Watchdog.resume, Watchdog.update, hw, haw]
  all_goals exact Or.inr hA

/-- A tick whose body completes without an exception leaves the agent
watchdog paused, hence inactive for the next tick. -/
theorem tick_agent_paused_after (s : ScenarioManager) (ts : Timestamp) (env : TickEnv) :
    (_tick_scenario s ts env).error = none → (_tick_scenario s ts env).bodyRan = true →
    wdActive (_tick_scenario s ts env).state._agent_watchdog = false := by
  rcases hw : s._watchdog with _ | w
  all_goals rcases haw : s._agent_watchdog with _ | aw
  all_goals unfold _tick_scenario
  all_goals try simp only [hw, haw]
  all_goals repeat' split
  all_goals intro he hb
  all_goals simp_all [wdActive, Watchdog.pause]

/-- Field-level effects of `stop_scenario` common to all its branches. -/
theorem stop_fields (now game_now : Rat) (s : ScenarioManager) :
    (stop_scenario now game_now s).state._watchdog = Option.map Watchdog.stop s._watchdog ∧
    (stop_scenario now game_now s).state._agent_watchdog
      = Option.map Watchdog.stop s._agent_watchdog ∧
    (stop_scenario now game_now s).state.end_system_time = some now ∧
    (stop_scenario now game_now s).state.end_game_time = some game_now ∧
    (stop_scenario now game_now s).state.start_system_time = s.start_system_time ∧
    (stop_scenario now game_now s).state.start_game_time = s.start_game_time ∧
    (stop_scenario now game_now s).state.scenario = s.scenario := by
  unfold stop_scenario
  dsimp only
  repeat' split
  all_goals simp

/-- Stopping the watchdogs preserves the latched expiry, so the running
status reported after `stop_scenario` equals the one before. -/
theorem stop_running_status (now game_now : Rat) (s : ScenarioManager) :
    get_running_status (stop_scenario now game_now s).state = get_running_status s := by
  have h := (stop_fields now game_now s).1
  unfold get_running_status
  rw [h]
  rcases s._watchdog with _ | w
  · rfl
  · simp [Option.map, Watchdog.stop, Watchdog.get_status]

/-- When both start times exist, `stop_scenario` recomputes the durations
from the current clock readings. -/
theorem stop_durations (now game_now a b : Rat) (s : ScenarioManager)
    (h1 : s.start_system_time = some a) (h2 : s.start_game_time = some b) :
    (stop_scenario now game_now s).state.scenario_duration_system = now - a ∧
    (stop_scenario now game_now s).state.scenario_duration_game = game_now - b := by
  unfold stop_scenario
  dsimp only
  simp only [h1, h2]
  repeat' split
  all_goals simp

/-- The three guarded actions of `stop_scenario` happen exactly when the
running-status check passes (and, for termination and analysis, a scenario
object exists; for agent release, an agent reference exists). -/
theorem stop_actions (now game_now a b : Rat) (s : ScenarioManager)
    (h1 : s.start_system_time = some a) (h2 : s.start_game_time = some b) :
    (stop_scenario now game_now s).terminated = (get_running_status s && s.scenario.isSome) ∧
    (stop_scenario now game_now s).agentReleased = (get_running_status s && s._agent) ∧
    (stop_scenario now game_now s).analyzed.isSome
      = (get_running_status s && s.scenario.isSome) := by
  rcases hw : s._watchdog with _ | w
  · unfold stop_scenario get_running_status
    dsimp only
    simp [h1, h2, hw]
  · unfold stop_scenario get_running_status
    dsimp only
    simp only [h1, h2, hw]
    by_cases hex : w.expired = true
    · simp [Option.map, Watchdog.stop, Watchdog.get_status, hex]
    · simp only [Bool.not_eq_true] at hex
      simp only [Option.map, Watchdog.stop, Watchdog.get_status, hex]
      rcases hsc : s.scenario with _ | sc <;> by_cases hag : s._agent = true <;>
        simp [hsc, hag]

/-- The agent reference after `stop_scenario` survives only when the
running-status check failed. -/
theorem stop_agent_field (now game_now a b : Rat) (s : ScenarioManager)
    (h1 : s.start_system_time = some a) (h2 : s.start_game_time = some b) :
    (stop_scenario now game_now s).state._agent = (!get_running_status s && s._agent) := by
  rcases hw : s._watchdog with _ | w
  · unfold stop_scenario get_running_status
    dsimp only
    simp [h1, h2, hw]
  · unfold stop_scenario get_running_status
    dsimp only
    simp only [h1, h2, hw]
    by_cases hex : w.expired = true
    · simp [Option.map, Watchdog.stop, Watchdog.get_status, hex]
    · simp only [Bool.not_eq_true] at hex
      simp only [Option.map, Watchdog.stop, Watchdog.get_status, hex]
      rcases hsc : s.scenario with _ | sc <;> by_cases hag : s._agent = true <;>
        simp [hsc, hag]

/-- When both start times exist, `stop_scenario` raises nothing except in the
corner where the running-status check passes while no scenario object is
bound: there `analyze_scenario` is reached and its read of
`self.scenario.get_criteria()` on `None` raises an AttributeError. -/
theorem stop_error (now game_now a b : Rat) (s : ScenarioManager)
    (h1 : s.start_system_time = some a) (h2 : s.start_game_time = some b) :
    (stop_scenario now game_now s).error
      = (if get_running_status s && !s.scenario.isSome
         then some PyErr.attributeError else none) := by
  rcases hw : s._watchdog with _ | w
  · unfold stop_scenario get_running_status
    dsimp only
    simp [h1, h2, hw]
  · unfold stop_scenario get_running_status
    dsimp only
    simp only [h1, h2, hw]
    by_cases hex : w.expired = true
    · simp [Option.map, Watchdog.stop, Watchdog.get_status, hex]
    · simp only [Bool.not_eq_true] at hex
      simp only [Option.map, Watchdog.stop, Watchdog.get_status, hex]
      rcases hsc : s.scenario with _ | sc <;> by_cases hag : s._agent = true <;>
        simp [hsc, hag]

/-- If any of the three guarded actions of `stop_scenario` was observed, the
running-status check (still visible on the stopped state) passed. -/
theorem stop_observed_only_healthy (now game_now : Rat) (s : ScenarioManager)
    (h : (stop_scenario now game_now s).terminated = true ∨
         (stop_scenario now game_now s).agentReleased = true ∨
         (stop_scenario now game_now s).analyzed.isSome = true) :
    get_running_status (stop_scenario now game_now s).state = true := by
  rw [stop_running_status]
  rcases hsst : s.start_system_time with _ | a
  · exfalso
    unfold stop_scenario at h
    dsimp only at h
    simp [hsst] at h
  · rcases hsgt : s.start_game_time with _ | b
    · exfalso
      unfold stop_scenario at h
      dsimp only at h
      simp [hsst, hsgt] at h
    · have ha := stop_actions now game_now a b s hsst hsgt
      rw [ha.1, ha.2.1, ha.2.2] at h
      rcases h with h | h | h <;> simp only [Bool.and_eq_true] at h <;> exact h.1

end ScenarioManager

end LeaderboardSM

namespace LeaderboardSM

namespace ScenarioManager

/-- C1 counterexample: loading a scenario whose controlled-actor list is
empty onto a fresh manager fails, but with an IndexError, which differs from
the ConfigurationError the claim names; no code path of load_scenario raises
a ConfigurationError. -/
theorem claim_C1_counterexample :
    (load_scenario (init 10 false)
      { scenario := { criteria := [], timeout_node := { timeout := false } }
      , ego_vehicles := [], other_actors := [] } 0).2 = some PyErr.indexError ∧
    some PyErr.indexError ≠ some PyErr.configurationError :=
  ⟨rfl, by decide⟩

/-- C1 (amended): for every scenario whose controlled-actor list is empty,
load_scenario fails synchronously, but the error is the IndexError raised by
the expression ego_vehicles[0] in the setup_sensors call, not a
ConfigurationError. -/
theorem claim_C1 (s : ScenarioManager) (scen : ScenarioClass) (rep : Nat)
    (h : scen.ego_vehicles = []) :
    (load_scenario s scen rep).2 = some PyErr.indexError ∧
    some PyErr.indexError ≠ some PyErr.configurationError := by
  constructor
  · unfold load_scenario
    dsimp only
    rw [h]
  · decide

/-- C1 witness: a concrete empty-actor-list load fails with IndexError. -/
theorem claim_C1_witness :
    (load_scenario (init 5 true)
      { scenario := { criteria := [], timeout_node := { timeout := true } }
      , ego_vehicles := [], other_actors := [] } 3).2 = some PyErr.indexError ∧
    some PyErr.indexError ≠ some PyErr.configurationError :=
  claim_C1 (init 5 true)
    { scenario := { criteria := [], timeout_node := { timeout := true } }
    , ego_vehicles := [], other_actors := [] } 3 rfl

/-- C2 counterexample: after a first stop_scenario call at clock reading 10,
a second call at clock reading 11 overwrites end_system_time (some 10 becomes
some 11) and the system duration (10 becomes 11), and performs scenario
termination and result analysis again, so the claim as stated is false. -/
theorem claim_C2_counterexample :
    (stop_scenario 10 5 startedManager).state.end_system_time = some 10 ∧
    (stop_scenario 11 6 (stop_scenario 10 5 startedManager).state).state.end_system_time
      = some 11 ∧
    (stop_scenario 10 5 startedManager).state.scenario_duration_system = 10 ∧
    (stop_scenario 11 6 (stop_scenario 10 5 startedManager).state).state.scenario_duration_system
      = 11 ∧
    (stop_scenario 11 6 (stop_scenario 10 5 startedManager).state).terminated = true ∧
    (stop_scenario 11 6 (stop_scenario 10 5 startedManager).state).analyzed.isSome = true := by
  have hf1 := stop_fields 10 5 startedManager
  have h1b : (stop_scenario 10 5 startedManager).state.start_system_time = some 0 := by
    rw [hf1.2.2.2.2.1]
    rfl
  have h2b : (stop_scenario 10 5 startedManager).state.start_game_time = some 0 := by
    rw [hf1.2.2.2.2.2.1]
    rfl
  have hf2 := stop_fields 11 6 (stop_scenario 10 5 startedManager).state
  have hd1 := stop_durations 10 5 0 0 startedManager rfl rfl
  have hd2 := stop_durations 11 6 0 0 (stop_scenario 10 5 startedManager).state h1b h2b
  have hact2 := stop_actions 11 6 0 0 (stop_scenario 10 5 startedManager).state h1b h2b
  refine ⟨hf1.2.2.1, hf2.2.2.1, ?_, ?_, ?_, ?_⟩
  · rw [hd1.1]
    norm_num
  · rw [hd2.1]
    norm_num
  · rw [hact2.1, stop_running_status 10 5 startedManager, hf1.2.2.2.2.2.2]
    rfl
  · rw [hact2.2.2, stop_running_status 10 5 startedManager, hf1.2.2.2.2.2.2]
    rfl

/-- C2 (amended): a second stop_scenario call is not idempotent: it
overwrites the end times and the durations with values derived from the
current clock readings, and, whenever the running-status check still passes
and a scenario object exists, it performs scenario termination and result
analysis again; only the agent release is not repeated, because the first
passing call cleared the agent reference.  The second call raises an
exception only in the corner where the running-status check passes while no
scenario object is bound, in which analyze_scenario raises an AttributeError
on both calls alike; otherwise it raises nothing. -/
theorem claim_C2 (s : ScenarioManager) (n1 g1 n2 g2 a b : Rat)
    (h1 : s.start_system_time = some a) (h2 : s.start_game_time = some b) :
    (stop_scenario n2 g2 (stop_scenario n1 g1 s).state).state.end_system_time = some n2 ∧
    (stop_scenario n2 g2 (stop_scenario n1 g1 s).state).state.end_game_time = some g2 ∧
    (stop_scenario n2 g2 (stop_scenario n1 g1 s).state).state.scenario_duration_system
      = n2 - a ∧
    (stop_scenario n2 g2 (stop_scenario n1 g1 s).state).state.scenario_duration_game
      = g2 - b ∧
    (stop_scenario n2 g2 (stop_scenario n1 g1 s).state).agentReleased = false ∧
    (stop_scenario n2 g2 (stop_scenario n1 g1 s).state).terminated
      = (get_running_status (stop_scenario n1 g1 s).state
          && (stop_scenario n1 g1 s).state.scenario.isSome) ∧
    (stop_scenario n2 g2 (stop_scenario n1 g1 s).state).analyzed.isSome
      = (get_running_status (stop_scenario n1 g1 s).state
          && (stop_scenario n1 g1 s).state.scenario.isSome) ∧
    (stop_scenario n2 g2 (stop_scenario n1 g1 s).state).error
      = (if get_running_status (stop_scenario n1 g1 s).state
            && !(stop_scenario n1 g1 s).state.scenario.isSome
         then some PyErr.attributeError else none) := by
  have hf := stop_fields n1 g1 s
  have h1b : (stop_scenario n1 g1 s).state.start_system_time = some a := by
    rw [hf.2.2.2.2.1, h1]
  have h2b : (stop_scenario n1 g1 s).state.start_game_time = some b := by
    rw [hf.2.2.2.2.2.1, h2]
  have hf2 := stop_fields n2 g2 (stop_scenario n1 g1 s).state
  have hd2 := stop_durations n2 g2 a b (stop_scenario n1 g1 s).state h1b h2b
  have hact2 := stop_actions n2 g2 a b (stop_scenario n1 g1 s).state h1b h2b
  have herr2 := stop_error n2 g2 a b (stop_scenario n1 g1 s).state h1b h2b
  refine ⟨hf2.2.2.1, hf2.2.2.2.1, hd2.1, hd2.2, ?_, hact2.1, hact2.2.2, herr2⟩
  rw [hact2.2.1, stop_running_status n1 g1 s, stop_agent_field n1 g1 a b s h1 h2]
  cases hgs : get_running_status s <;> simp

/-- C2 witness: the amended statement evaluated on a started manager with
both start times 0, first stop at readings (10, 5), second at (11, 6). -/
theorem claim_C2_witness :
    (stop_scenario 11 6 (stop_scenario 10 5 startedManager).state).state.end_system_time
      = some 11 ∧
    (stop_scenario 11 6 (stop_scenario 10 5 startedManager).state).state.end_game_time
      = some 6 ∧
    (stop_scenario 11 6 (stop_scenario 10 5 startedManager).state).state.scenario_duration_system
      = 11 - 0 ∧
    (stop_scenario 11 6 (stop_scenario 10 5 startedManager).state).state.scenario_duration_game
      = 6 - 0 ∧
    (stop_scenario 11 6 (stop_scenario 10 5 startedManager).state).agentReleased = false ∧
    (stop_scenario 11 6 (stop_scenario 10 5 startedManager).state).terminated
      = (get_running_status (stop_scenario 10 5 startedManager).state
          && (stop_scenario 10 5 startedManager).state.scenario.isSome) ∧
    (stop_scenario 11 6 (stop_scenario 10 5 startedManager).state).analyzed.isSome
      = (get_running_status (stop_scenario 10 5 startedManager).state
          && (stop_scenario 10 5 startedManager).state.scenario.isSome) ∧
    (stop_scenario 11 6 (stop_scenario 10 5 startedManager).state).error
      = (if get_running_status (stop_scenario 10 5 startedManager).state
            && !(stop_scenario 10 5 startedManager).state.scenario.isSome
         then some PyErr.attributeError else none) :=
  claim_C2 startedManager 10 5 11 6 0 0 rfl rfl

end ScenarioManager

end LeaderboardSM

namespace LeaderboardSM

namespace ScenarioManager

/-- C3 counterexample: the claim asserts the two watchdogs are never both
active at any point of a run, including before the first tick; right after
run_scenario creates and starts both watchdogs (lines 130 to 135), before the
first tick body has paused either, both are running and unpaused at once, so
the claim as stated is false. -/
theorem claim_C3_counterexample :
    wdActive (run_scenario_init 0 0 (init 10 false))._watchdog = true ∧
    wdActive (run_scenario_init 0 0 (init 10 false))._agent_watchdog = true :=
  ⟨rfl, rfl⟩

/-- C3 (amended): within every tick body entered with the agent watchdog
inactive, the two watchdogs are never simultaneously active at any
intermediate point, including the exception paths out of the agent call, and
every tick body that completes leaves the agent watchdog paused, so the
exclusion holds from the end of the first successful agent call onward; it
does not hold between run start and that first agent call, where both
watchdogs are started active. -/
theorem claim_C3 :
    (∀ (s : ScenarioManager) (ts : Timestamp) (env : TickEnv),
      wdActive s._agent_watchdog = false →
      ((_tick_scenario s ts env).trace.all
        (fun p => !(wdActive p.1 && wdActive p.2))) = true) ∧
    (∀ (s : ScenarioManager) (ts : Timestamp) (env : TickEnv),
      (_tick_scenario s ts env).error = none → (_tick_scenario s ts env).bodyRan = true →
      wdActive (_tick_scenario s ts env).state._agent_watchdog = false) :=
  ⟨tick_trace_mutex, tick_agent_paused_after⟩

/-- C3 witness: the watchdog exclusion evaluated on the tick after the first
full tick of a started manager. -/
theorem claim_C3_witness :
    ((_tick_scenario afterFirstTick { elapsed_seconds := 2 } envControl).trace.all
      (fun p => !(wdActive p.1 && wdActive p.2))) = true :=
  claim_C3.1 afterFirstTick { elapsed_seconds := 2 } envControl (by decide)

/-- C4: within a tick that reaches the agent call, an agent raising the
"no sensor data" condition propagates as a RuntimeError, a simulation-level
fault, and any other agent exception propagates as an AgentError, an
agent-attributable fault; the two faults are distinct. -/
theorem claim_C4 (s : ScenarioManager) (ts : Timestamp) (env : TickEnv)
    (hg : tickGuard s ts = true) (hw : s._watchdog.isSome = true)
    (haw : s._agent_watchdog.isSome = true) (hag : s._agent = true) :
    (env.agentResult = AgentOutcome.sensorNoData →
      (_tick_scenario s ts env).error = some PyErr.runtimeErrorSensor) ∧
    (env.agentResult = AgentOutcome.raisesOther →
      (_tick_scenario s ts env).error = some PyErr.agentError) ∧
    PyErr.runtimeErrorSensor ≠ PyErr.agentError := by
  rcases Option.isSome_iff_exists.mp hw with ⟨w, hw2⟩
  rcases Option.isSome_iff_exists.mp haw with ⟨aw, haw2⟩
  refine ⟨?_, ?_, by decide⟩ <;> intro hr <;>
    (unfold _tick_scenario; simp [hg, hw2, haw2, hag, hr])

/-- C4 witness: the sensor case evaluated on a started manager. -/
theorem claim_C4_witness :
    (_tick_scenario startedManager { elapsed_seconds := 1 }
      { agentResult := AgentOutcome.sensorNoData, treeStatusAfter := Status.RUNNING }).error
      = some PyErr.runtimeErrorSensor :=
  (claim_C4 startedManager { elapsed_seconds := 1 }
    { agentResult := AgentOutcome.sensorNoData, treeStatusAfter := Status.RUNNING }
    (by decide) rfl rfl rfl).1 rfl

/-- C5: over any run of the loop, the timestamps whose tick body executes are
strictly increasing, hence no timestamp value has its body executed twice;
and a frame whose elapsed_seconds is not strictly greater than the last
processed timestamp executes no tick body and leaves the manager state
untouched, so repeated polling of the same frame is idempotent. -/
theorem claim_C5 (s : ScenarioManager) (frames : List (Timestamp × TickEnv)) :
    List.Chain' (· < ·) (s._timestamp_last_run :: processed s frames) ∧
    (processed s frames).Nodup ∧
    (∀ (ts : Timestamp) (env : TickEnv),
      ts.elapsed_seconds ≤ s._timestamp_last_run →
      (_tick_scenario s ts env).bodyRan = false ∧
      (_tick_scenario s ts env).state = s) := by
  refine ⟨processed_chain frames s, processed_nodup s frames, ?_⟩
  intro ts env hle
  have hg : tickGuard s ts = false := by
    unfold tickGuard
    simp [not_lt.mpr hle]
  rw [tick_not_run s ts env hg]
  exact ⟨rfl, rfl⟩

/-- C5 witness: re-polling the start frame of a started manager runs no tick
body and changes nothing. -/
theorem claim_C5_witness :
    (_tick_scenario startedManager { elapsed_seconds := 0 } envControl).bodyRan = false ∧
    (_tick_scenario startedManager { elapsed_seconds := 0 } envControl).state
      = startedManager :=
  (claim_C5 startedManager []).2.2 { elapsed_seconds := 0 } envControl (by decide)

/-- C6: analyze_scenario reports the FAILURE verdict exactly when some
criterion has a test status other than SUCCESS or the timeout node flag is
set, and the SUCCESS verdict exactly when all criteria are SUCCESS and the
timeout flag is clear; the behavior tree status is not consulted at all. -/
theorem claim_C6 (sc : InnerScenario) :
    (analyze_scenario sc = FAILURE_RESULT ↔
      ((∃ c ∈ sc.criteria, c.test_status ≠ "SUCCESS") ∨ sc.timeout_node.timeout = true)) ∧
    (analyze_scenario sc = SUCCESS_RESULT ↔
      ((∀ c ∈ sc.criteria, c.test_status = "SUCCESS") ∧ sc.timeout_node.timeout = false)) := by
  have hbase : analyze_scenario sc
      = if sc.timeout_node.timeout = true then FAILURE_RESULT
        else if ∃ c ∈ sc.criteria, c.test_status ≠ "SUCCESS" then FAILURE_RESULT
        else SUCCESS_RESULT := by
    simp only [analyze_scenario]
    rw [analyze_foldl]
  rw [hbase]
  by_cases ht : sc.timeout_node.timeout = true
  · rw [if_pos ht]
    constructor
    · simp [ht]
    · simp [ht, Ne.symm success_ne_failure]
  · rw [if_neg ht]
    rw [Bool.not_eq_true] at ht
    by_cases hex : ∃ c ∈ sc.criteria, c.test_status ≠ "SUCCESS"
    · rw [if_pos hex]
      constructor
      · simp [hex]
      · constructor
        · intro h
          exact absurd h (Ne.symm success_ne_failure)
        · rintro ⟨hall, -⟩
          obtain ⟨c, hm, hne⟩ := hex
          exact absurd (hall c hm) hne
    · rw [if_neg hex]
      constructor
      · constructor
        · intro h
          exact absurd h success_ne_failure
        · rintro (h | h)
          · exact absurd h hex
          · rw [ht] at h
            exact absurd h (by simp)
      · constructor
        · intro _
          refine ⟨?_, ht⟩
          intro c hm
          by_contra hne
          exact hex ⟨c, hm, hne⟩
        · intro _
          rfl

/-- C6 witness: one failing criterion forces the FAILURE verdict. -/
theorem claim_C6_witness :
    analyze_scenario { criteria := [{ name := "collision", test_status := "FAILURE" }]
                     , timeout_node := { timeout := false } } = FAILURE_RESULT :=
  (claim_C6 { criteria := [{ name := "collision", test_status := "FAILURE" }]
            , timeout_node := { timeout := false } }).1.mpr
    (Or.inl ⟨{ name := "collision", test_status := "FAILURE" },
      List.mem_singleton_self _, by decide⟩)

end ScenarioManager

end LeaderboardSM

namespace LeaderboardSM

namespace ScenarioManager

/-- C7: when the world watchdog exists and reports expired, stop_scenario
stops the watchdogs (their running flags drop), records the end times and
recomputes the durations, yet performs no scenario termination, no agent
release and no result analysis; conversely, whenever any of those three
actions is observed, the running-status check on the stopped state passed. -/
theorem claim_C7 :
    (∀ (s : ScenarioManager) (now game_now a b : Rat) (w : Watchdog),
      s._watchdog = some w → w.get_status = false →
      s.start_system_time = some a → s.start_game_time = some b →
      ((stop_scenario now game_now s).state._watchdog = some w.stop ∧
       w.stop.running = false ∧
       (stop_scenario now game_now s).state._agent_watchdog
         = Option.map Watchdog.stop s._agent_watchdog ∧
       (stop_scenario now game_now s).state.end_system_time = some now ∧
       (stop_scenario now game_now s).state.end_game_time = some game_now ∧
       (stop_scenario now game_now s).state.scenario_duration_system = now - a ∧
       (stop_scenario now game_now s).state.scenario_duration_game = game_now - b ∧
       (stop_scenario now game_now s).terminated = false ∧
       (stop_scenario now game_now s).agentReleased = false ∧
       (stop_scenario now game_now s).analyzed = none)) ∧
    (∀ (s : ScenarioManager) (now game_now : Rat),
      ((stop_scenario now game_now s).terminated = true ∨
       (stop_scenario now game_now s).agentReleased = true ∨
       (stop_scenario now game_now s).analyzed.isSome = true) →
      get_running_status (stop_scenario now game_now s).state = true) := by
  constructor
  · intro s now game_now a b w hw hst h1 h2
    have hgrs : get_running_status s = false := by
      unfold get_running_status
      rw [hw]
      exact hst
    have hf := stop_fields now game_now s
    have hd := stop_durations now game_now a b s h1 h2
    have hact := stop_actions now game_now a b s h1 h2
    refine ⟨?_, rfl, hf.2.1, hf.2.2.1, hf.2.2.2.1, hd.1, hd.2, ?_, ?_, ?_⟩
    · rw [hf.1, hw]
      rfl
    · rw [hact.1, hgrs]
      rfl
    · rw [hact.2.1, hgrs]
      rfl
    · have hs := hact.2.2
      rw [hgrs] at hs
      simp only [Bool.false_and] at hs
      cases hx : (stop_scenario now game_now s).analyzed with
      | none => rfl
      | some v =>
        rw [hx] at hs
        simp at hs
  · intro s now game_now h
    exact stop_observed_only_healthy now game_now s h

/-- C7 witness: the skip behavior evaluated on a started manager whose world
watchdog expired. -/
theorem claim_C7_witness :
    (stop_scenario 10 5 expiredWorldManager).terminated = false ∧
    (stop_scenario 10 5 expiredWorldManager).agentReleased = false ∧
    (stop_scenario 10 5 expiredWorldManager).analyzed = none :=
  ⟨(claim_C7.1 expiredWorldManager 10 5 0 0
      (Watchdog.expire (Watchdog.start (Watchdog.init 10))) rfl rfl rfl rfl).2.2.2.2.2.2.2.1,
   (claim_C7.1 expiredWorldManager 10 5 0 0
      (Watchdog.expire (Watchdog.start (Watchdog.init 10))) rfl rfl rfl rfl).2.2.2.2.2.2.2.2.1,
   (claim_C7.1 expiredWorldManager 10 5 0 0
      (Watchdog.expire (Watchdog.start (Watchdog.init 10))) rfl rfl rfl rfl).2.2.2.2.2.2.2.2.2⟩

/-- C8: the interrupt handler first checks the agent watchdog and raises the
RuntimeError naming the agent deadline when it is expired, then checks the
world watchdog and raises the RuntimeError naming the simulation deadline,
and only when neither existing watchdog is expired does it clear the running
flag (plain cancellation); in the raising cases the running flag is left
untouched. -/
theorem claim_C8 (s : ScenarioManager) :
    (wdCheckFailed s._agent_watchdog = true →
      signal_handler s = (s, some (PyErr.runtimeErrorAgentTimeout s._timeout))) ∧
    (wdCheckFailed s._agent_watchdog = false → wdCheckFailed s._watchdog = true →
      signal_handler s = (s, some (PyErr.runtimeErrorSimTimeout s._timeout))) ∧
    (wdCheckFailed s._agent_watchdog = false → wdCheckFailed s._watchdog = false →
      signal_handler s = ({ s with _running := false }, none)) := by
  refine ⟨fun h1 => ?_, fun h1 h2 => ?_, fun h1 h2 => ?_⟩ <;>
    unfold signal_handler <;> simp [h1]
  · simp [h2]
  · simp [h2]

/-- C8 witness: the handler on a started manager with an expired agent
watchdog raises the agent deadline error. -/
theorem claim_C8_witness :
    signal_handler expiredAgentManager
      = (expiredAgentManager, some (PyErr.runtimeErrorAgentTimeout 10)) :=
  (claim_C8 expiredAgentManager).1 (by decide)

/-- C9: on a freshly constructed manager, start_system_time is None and
start_game_time was never assigned, so calling stop_scenario before any run
fails with the TypeError raised by the duration subtraction, leaving the
durations at their initial zero and performing none of the guarded
actions. -/
theorem claim_C9 (t now game_now : Rat) (d : Bool) :
    (init t d).start_system_time = none ∧
    (init t d).start_game_time = none ∧
    (stop_scenario now game_now (init t d)).error = some PyErr.typeError ∧
    (stop_scenario now game_now (init t d)).state.scenario_duration_system = 0 ∧
    (stop_scenario now game_now (init t d)).state.scenario_duration_game = 0 ∧
    (stop_scenario now game_now (init t d)).terminated = false ∧
    (stop_scenario now game_now (init t d)).agentReleased = false ∧
    (stop_scenario now game_now (init t d)).analyzed = none :=
  ⟨rfl, rfl, rfl, rfl, rfl, rfl, rfl, rfl⟩

/-- C10: load_scenario never touches the last processed timestamp, which only
the constructor and cleanup reset to zero; hence after loading a second
scenario without cleanup, a frame whose elapsed_seconds does not exceed the
previous run's largest ticked timestamp executes no tick body and changes
nothing. -/
theorem claim_C10 (s : ScenarioManager) (scen : ScenarioClass) (rep : Nat) :
    (load_scenario s scen rep).1._timestamp_last_run = s._timestamp_last_run ∧
    (cleanup s)._timestamp_last_run = 0 ∧
    (∀ (t : Rat) (d : Bool), (init t d)._timestamp_last_run = 0) ∧
    (∀ (ts : Timestamp) (env : TickEnv),
      ts.elapsed_seconds ≤ s._timestamp_last_run →
      (_tick_scenario (load_scenario s scen rep).1 ts env).bodyRan = false ∧
      (_tick_scenario (load_scenario s scen rep).1 ts env).state
        = (load_scenario s scen rep).1) := by
  have hpres : (load_scenario s scen rep).1._timestamp_last_run = s._timestamp_last_run := by
    unfold load_scenario
    dsimp only
    split <;> rfl
  refine ⟨hpres, rfl, fun t d => rfl, ?_⟩
  intro ts env hle
  have hg : tickGuard (load_scenario s scen rep).1 ts = false := by
    unfold tickGuard
    rw [hpres]
    simp [not_lt.mpr hle]
  rw [tick_not_run _ ts env hg]
  exact ⟨rfl, rfl⟩

/-- C10 witness: after a run that ticked up to timestamp 5, loading a new
scenario keeps 5, and a frame at timestamp 3 runs no tick body. -/
theorem claim_C10_witness :
    (_tick_scenario (load_scenario ranManager demoScenario 1).1
        { elapsed_seconds := 3 } envControl).bodyRan = false ∧
    (_tick_scenario (load_scenario ranManager demoScenario 1).1
        { elapsed_seconds := 3 } envControl).state
      = (load_scenario ranManager demoScenario 1).1 :=
  (claim_C10 ranManager demoScenario 1).2.2.2 { elapsed_seconds := 3 } envControl (by decide)

end ScenarioManager

end LeaderboardSM
